import Mathlib

/-!
Verification of the underwater-image enhancement network (`models/agg.py`)
and its training loop (`train.py`) through a shallow embedding.

Tensors are tracked at the level of their shapes: `Shape4` records
`[batch, channel, height, width]`.  Each PyTorch layer used by the code is
embedded as a function `Shape4 → Option Shape4` that returns `none`
exactly when the layer would raise at run time (reflection padding larger
than the padded dimension, a convolution whose effective kernel exceeds
the padded input, pooling that would produce an empty output, channel
mismatches, or concatenation of spatially incompatible tensors).
Constructor-time configuration logic is embedded separately as `Except`
valued initialisers, and the checkpoint logic of the training loop as a
recursion over the list of per-phase validation PSNR values.
-/

/-- Shape of a rank-4 tensor `[N, C, H, W]`. -/
structure Shape4 where
  n : Nat
  c : Nat
  h : Nat
  w : Nat
deriving DecidableEq, Repr

/-- `nn.ReflectionPad2d(p)`: pads every side by `p`.  PyTorch requires the
padding to be strictly smaller than the corresponding input dimension. -/
def reflectionPad2dShape (p : Nat) (s : Shape4) : Option Shape4 :=
  if p < s.h ∧ p < s.w then
    some ⟨s.n, s.c, s.h + 2 * p, s.w + 2 * p⟩
  else
    none

/-- `nn.Conv2d(cin, cout, k, stride, padding = pad, dilation = d)` output
shape: `(size + 2*pad - d*(k-1) - 1) / stride + 1`, defined when the
channel count matches and the effective kernel fits in the padded input. -/
def conv2dShape (cin cout k stride pad d : Nat) (s : Shape4) : Option Shape4 :=
  if s.c = cin ∧ 0 < stride ∧
      d * (k - 1) + 1 ≤ s.h + 2 * pad ∧ d * (k - 1) + 1 ≤ s.w + 2 * pad then
    some ⟨s.n, cout,
      (s.h + 2 * pad - (d * (k - 1) + 1)) / stride + 1,
      (s.w + 2 * pad - (d * (k - 1) + 1)) / stride + 1⟩
  else
    none

/-- Reflection-padding size used by `ConvLayer.__init__`:
`(kernel_size + (dilation - 1) * (kernel_size - 1)) // 2`. -/
def convLayerPad (k d : Nat) : Nat :=
  (k + (d - 1) * (k - 1)) / 2

/-- Shape semantics of `ConvLayer.forward`: reflection padding of size
`convLayerPad k d`, then the unpadded `nn.Conv2d`; the optional
normalization and activation leave the shape unchanged. -/
def convLayerShape (cin cout k stride d : Nat) (s : Shape4) : Option Shape4 :=
  (reflectionPad2dShape (convLayerPad k d) s).bind (conv2dShape cin cout k stride 0 d)

/-- `nn.MaxPool2d(kernel_size = 2, stride = 2)` as used inside VGG-16. -/
def maxPool2dShape (s : Shape4) : Option Shape4 :=
  if 2 ≤ s.h ∧ 2 ≤ s.w then
    some ⟨s.n, s.c, (s.h - 2) / 2 + 1, (s.w - 2) / 2 + 1⟩
  else
    none

/-- `F.avg_pool2d(x, kernel_size = k, stride = k, padding = pad)`; PyTorch
requires `pad ≤ k / 2` and a non-empty output. -/
def avgPool2dShape (k pad : Nat) (s : Shape4) : Option Shape4 :=
  if 0 < k ∧ 2 * pad ≤ k ∧ k ≤ s.h + 2 * pad ∧ k ≤ s.w + 2 * pad then
    some ⟨s.n, s.c, (s.h + 2 * pad - k) / k + 1, (s.w + 2 * pad - k) / k + 1⟩
  else
    none

/-- `F.interpolate(x, size = (h, w), mode = mode)`: keeps batch and channel
dimensions, forces the spatial size.  The mode does not affect the shape. -/
def interpolateShape (mode : String) (h w : Nat) (s : Shape4) : Shape4 :=
  ⟨s.n, s.c, h, w⟩

/-- `torch.cat(xs, dim = 1)`: all operands must agree on batch and spatial
dimensions; channel counts add. -/
def catChShape : List Shape4 → Option Shape4
  | [] => none
  | s :: rest =>
    if rest.all (fun t => t.n == s.n && t.h == s.h && t.w == s.w) then
      some ⟨s.n, s.c + (rest.map Shape4.c).sum, s.h, s.w⟩
    else
      none

/-- Shape semantics of `SelfAttention.attention`: global average pooling to
`(1,1)`, flatten, `Linear(channels, channels // k)`, activation,
`Linear(channels // k, channels)`, sigmoid, reshape to `(N, C, 1, 1)` and
elementwise multiplication with the input — the input shape is preserved
and the channel count must equal the configured `channels`. -/
def selfAttentionShape (channels : Nat) (s : Shape4) : Option Shape4 :=
  if s.c = channels then some s else none

/-- Shape semantics of `Aggreation.forward`: `SelfAttention(in_channels, k = 8)`
followed by a 3×3 stride-1 `ConvLayer` to `out_channels`. -/
def aggreationShape (cin cout : Nat) (s : Shape4) : Option Shape4 :=
  (selfAttentionShape cin s).bind (convLayerShape cin cout 3 1 1)

/-! ### Constructor-time configuration of the primitive layers -/

/-- Resolved normalization member of `ConvLayer`. -/
inductive NormChoice where
  | bn
  | insNorm
  | noNorm
deriving DecidableEq, Repr

/-- Resolved activation member of `ConvLayer` / `SelfAttention`. -/
inductive ActChoice where
  | relu
  | leakyrelu
  | prelu
  | noAct
deriving DecidableEq, Repr

/-- The configuration a successfully constructed `ConvLayer` holds. -/
structure ConvLayerCfg where
  pad : Nat
  cin : Nat
  cout : Nat
  k : Nat
  stride : Nat
  dilation : Nat
  norm : NormChoice
  act : ActChoice
deriving DecidableEq, Repr

/-- `ConvLayer.__init__`: resolves the `norm` and `nonlinear` strings by an
if/elif chain whose final `else` stores `None`; no string is ever
rejected, so construction always succeeds. -/
def convLayerInit (cin cout k stride dilation : Nat) (norm nonlinear : String) :
    Except String ConvLayerCfg :=
  Except.ok
    { pad := convLayerPad k dilation
      cin := cin, cout := cout, k := k, stride := stride, dilation := dilation
      norm :=
        if norm = "bn" then NormChoice.bn
        else if norm = "in" then NormChoice.insNorm
        else NormChoice.noNorm
      act :=
        if nonlinear = "relu" then ActChoice.relu
        else if nonlinear = "leakyrelu" then ActChoice.leakyrelu
        else if nonlinear = "PReLU" then ActChoice.prelu
        else ActChoice.noAct }

/-- The configuration a successfully constructed `SelfAttention` holds;
`hidden` is the bottleneck width `channels // k` of `linear1`/`linear2`. -/
structure SACfg where
  channels : Nat
  k : Nat
  hidden : Nat
  act : ActChoice
deriving DecidableEq, Repr

/-- `SelfAttention.__init__`: builds `Linear(channels, channels // k)` and
`Linear(channels // k, channels)` (integer floor division, no divisibility
check), then resolves `nonlinear`; the final `else` raises `ValueError`. -/
def selfAttentionInit (channels k : Nat) (nonlinear : String) :
    Except String SACfg :=
  if nonlinear = "relu" then
    Except.ok ⟨channels, k, channels / k, ActChoice.relu⟩
  else if nonlinear = "leakyrelu" then
    Except.ok ⟨channels, k, channels / k, ActChoice.leakyrelu⟩
  else if nonlinear = "PReLU" then
    Except.ok ⟨channels, k, channels / k, ActChoice.prelu⟩
  else
    Except.error "ValueError"

/-! ### Feature Backbone Extractor (`Backbone`)

`Backbone.__init__` takes `torchvision.models.vgg16(...).features[:-1]`
(the standard VGG-16 feature trunk without its final max-pool: thirteen
3×3 stride-1 padding-1 convolutions with ReLUs and four 2×2 max-pools)
and slices it at indices 4, 9, 16, 23 into five blocks. -/

/-- A VGG-16 convolution: `nn.Conv2d(cin, cout, 3, stride 1, padding 1)`;
the interleaved `ReLU` layers do not change shapes. -/
def vggConvShape (cin cout : Nat) (s : Shape4) : Option Shape4 :=
  conv2dShape cin cout 3 1 1 1 s

/-- `Backbone.block1 = features[0:4]`: conv 3→64, conv 64→64. -/
def block1Shape (s : Shape4) : Option Shape4 :=
  (vggConvShape 3 64 s).bind (vggConvShape 64 64)

/-- `Backbone.block2 = features[4:9]`: max-pool, conv 64→128, conv 128→128. -/
def block2Shape (s : Shape4) : Option Shape4 :=
  (maxPool2dShape s).bind fun t =>
    (vggConvShape 64 128 t).bind (vggConvShape 128 128)

/-- `Backbone.block3 = features[9:16]`: max-pool, conv 128→256, two conv 256→256. -/
def block3Shape (s : Shape4) : Option Shape4 :=
  (maxPool2dShape s).bind fun t =>
    (vggConvShape 128 256 t).bind fun u =>
      (vggConvShape 256 256 u).bind (vggConvShape 256 256)

/-- `Backbone.block4 = features[16:23]`: max-pool, conv 256→512, two conv 512→512. -/
def block4Shape (s : Shape4) : Option Shape4 :=
  (maxPool2dShape s).bind fun t =>
    (vggConvShape 256 512 t).bind fun u =>
      (vggConvShape 512 512 u).bind (vggConvShape 512 512)

/-- `Backbone.block5 = features[23:30]`: max-pool, three conv 512→512. -/
def block5Shape (s : Shape4) : Option Shape4 :=
  (maxPool2dShape s).bind fun t =>
    (vggConvShape 512 512 t).bind fun u =>
      (vggConvShape 512 512 u).bind (vggConvShape 512 512)

/-- `Backbone.forward`: collects `[x, block1(x), …, block5(…)]`, resizes,
via bicubic interpolation to `(H, W)`, every member whose spatial-size sum
differs from the input's (the code's test is `sum(item.size()[2:]) !=
sum(x.size()[2:])`), then concatenates on the channel axis and detaches. -/
def backboneShape (s : Shape4) : Option Shape4 := do
  let o1 ← block1Shape s
  let o2 ← block2Shape o1
  let o3 ← block3Shape o2
  let o4 ← block4Shape o3
  let o5 ← block5Shape o4
  catChShape ([s, o1, o2, o3, o4, o5].map fun t =>
    if t.h + t.w ≠ s.h + s.w then interpolateShape "bicubic" s.h s.w t else t)

/-! ### Spatial Pyramid Pooling (`SPP`) -/

/-- One pyramid level of `SPP.forward` (level `ℓ`): average-pool the input
with kernel = stride = `2 * 2^(ℓ+1)` and padding = that value mod 2, pass
the result through the level's 1×1 stride-1 `ConvLayer`, then interpolate
back to the original spatial size `(H, W)`. -/
def sppLevelShape (cin H W level : Nat) (s : Shape4) : Option Shape4 :=
  (avgPool2dShape (2 * 2 ^ (level + 1)) (2 * 2 ^ (level + 1) % 2) s).bind fun p =>
    (convLayerShape cin cin 1 1 1 p).map (interpolateShape "bicubic" H W)

/-- `SPP.forward`: the `num_layers` pyramid levels plus the raw input are
concatenated on the channel axis and fused by a 3×3 stride-1 `ConvLayer`
with `in_channels * (num_layers + 1)` input channels. -/
def sppShape (cin cout numLayers : Nat) (s : Shape4) : Option Shape4 := do
  let levels ← (List.range numLayers).mapM fun l => sppLevelShape cin s.h s.w l s
  let catted ← catChShape (levels ++ [s])
  convLayerShape (cin * (numLayers + 1)) cout 3 1 1 catted

/-! ### Enhancement Network (`Agg`) -/

/-- Shape semantics of `Agg.forward` (construction defaults:
`channels = 64`, backbone fusion from 1475 channels, stage dilations
1/1, 2/4, 8/16, 32/64, aggregations 2C→C, 3C→C, 3C→C, 4C→C, SPP with
4 levels, final `nn.Conv2d(channels, 3, 1, 1)`). -/
def aggShape (channels : Nat) (s : Shape4) : Option Shape4 := do
  let ob ← backboneShape s
  let fused ← convLayerShape 1475 channels 1 1 1 ob
  -- Stage0
  let o01 ← convLayerShape channels channels 1 1 1 fused
  let o02 ← convLayerShape channels channels 3 1 1 o01
  let a0 ← (catChShape [o01, o02]).bind (aggreationShape (channels * 2) channels)
  -- Stage1
  let o11 ← convLayerShape channels channels 3 1 2 a0
  let o12 ← convLayerShape channels channels 3 1 4 o11
  let a1 ← (catChShape [a0, o11, o12]).bind (aggreationShape (channels * 3) channels)
  -- Stage2
  let o21 ← convLayerShape channels channels 3 1 8 a1
  let o22 ← convLayerShape channels channels 3 1 16 o21
  let a2 ← (catChShape [a1, o21, o22]).bind (aggreationShape (channels * 3) channels)
  -- Stage3
  let o31 ← convLayerShape channels channels 3 1 32 a2
  let o32 ← convLayerShape channels channels 3 1 64 o31
  let a3 ← (catChShape [a1, a2, o31, o32]).bind (aggreationShape (channels * 4) channels)
  -- Stage4
  let sp ← sppShape channels channels 4 a3
  conv2dShape channels 3 1 1 0 1 sp

/-! ### Shape-preservation lemmas for the primitive layers -/

lemma conv2dShape_stride1 (cin cout k pad d n c h w : Nat)
    (hc : c = cin) (hh : d * (k - 1) + 1 ≤ h + 2 * pad)
    (hw : d * (k - 1) + 1 ≤ w + 2 * pad) :
    conv2dShape cin cout k 1 pad d ⟨n, c, h, w⟩ =
      some ⟨n, cout, h + 2 * pad - (d * (k - 1) + 1) + 1,
        w + 2 * pad - (d * (k - 1) + 1) + 1⟩ := by
  simp [conv2dShape, hc, hh, hw]

lemma convLayerPad_k3 (d : Nat) (hd : 1 ≤ d) : convLayerPad 3 d = d := by
  unfold convLayerPad
  omega

lemma convLayerShape_k1 (cin cout n c h w : Nat)
    (hc : c = cin) (hh : 1 ≤ h) (hw : 1 ≤ w) :
    convLayerShape cin cout 1 1 1 ⟨n, c, h, w⟩ = some ⟨n, cout, h, w⟩ := by
  have hpad : convLayerPad 1 1 = 0 := rfl
  have h1 : reflectionPad2dShape 0 ⟨n, c, h, w⟩ = some ⟨n, c, h, w⟩ := by
    simp [reflectionPad2dShape]
    omega
  rw [convLayerShape, hpad, h1, Option.some_bind,
    conv2dShape_stride1 cin cout 1 0 1 n c h w hc (by omega) (by omega)]
  simp only [Option.some.injEq, Shape4.mk.injEq]
  refine ⟨trivial, trivial, by omega, by omega⟩

lemma convLayerShape_k3 (cin cout d n c h w : Nat)
    (hc : c = cin) (hd : 1 ≤ d) (hh : d < h) (hw : d < w) :
    convLayerShape cin cout 3 1 d ⟨n, c, h, w⟩ = some ⟨n, cout, h, w⟩ := by
  have h1 : reflectionPad2dShape d ⟨n, c, h, w⟩ =
      some ⟨n, c, h + 2 * d, w + 2 * d⟩ := by
    simp [reflectionPad2dShape, hh, hw]
  rw [convLayerShape, convLayerPad_k3 d hd, h1, Option.some_bind,
    conv2dShape_stride1 cin cout 3 0 d n c (h + 2 * d) (w + 2 * d) hc
      (by omega) (by omega)]
  simp only [Option.some.injEq, Shape4.mk.injEq]
  refine ⟨trivial, trivial, by omega, by omega⟩

lemma maxPool2dShape_eq (n c h w : Nat) (hh : 2 ≤ h) (hw : 2 ≤ w) :
    maxPool2dShape ⟨n, c, h, w⟩ = some ⟨n, c, h / 2, w / 2⟩ := by
  simp [maxPool2dShape, hh, hw]
  constructor <;> omega

lemma vggConvShape_eq (cin cout n c h w : Nat)
    (hc : c = cin) (hh : 1 ≤ h) (hw : 1 ≤ w) :
    vggConvShape cin cout ⟨n, c, h, w⟩ = some ⟨n, cout, h, w⟩ := by
  rw [vggConvShape, conv2dShape_stride1 cin cout 3 1 1 n c h w hc (by omega) (by omega)]
  simp only [Option.some.injEq, Shape4.mk.injEq]
  refine ⟨trivial, trivial, by omega, by omega⟩

lemma selfAttentionShape_eq (channels n c h w : Nat) (hc : c = channels) :
    selfAttentionShape channels ⟨n, c, h, w⟩ = some ⟨n, c, h, w⟩ := by
  simp [selfAttentionShape, hc]

lemma aggreationShape_eq (cin cout n c h w : Nat)
    (hc : c = cin) (hh : 2 ≤ h) (hw : 2 ≤ w) :
    aggreationShape cin cout ⟨n, c, h, w⟩ = some ⟨n, cout, h, w⟩ := by
  rw [aggreationShape, selfAttentionShape_eq cin n c h w hc, Option.some_bind,
    convLayerShape_k3 cin cout 1 n c h w hc (by omega) (by omega) (by omega)]

/-! ### Concatenation lemmas -/

lemma catChShape_two (n c1 c2 h w : Nat) :
    catChShape [⟨n, c1, h, w⟩, ⟨n, c2, h, w⟩] = some ⟨n, c1 + c2, h, w⟩ := by
  simp [catChShape]

lemma catChShape_three (n c1 c2 c3 h w : Nat) :
    catChShape [⟨n, c1, h, w⟩, ⟨n, c2, h, w⟩, ⟨n, c3, h, w⟩] =
      some ⟨n, c1 + (c2 + c3), h, w⟩ := by
  simp [catChShape]

lemma catChShape_four (n c1 c2 c3 c4 h w : Nat) :
    catChShape [⟨n, c1, h, w⟩, ⟨n, c2, h, w⟩, ⟨n, c3, h, w⟩, ⟨n, c4, h, w⟩] =
      some ⟨n, c1 + (c2 + (c3 + c4)), h, w⟩ := by
  simp [catChShape]

lemma catChShape_five (n c1 c2 c3 c4 c5 h w : Nat) :
    catChShape [⟨n, c1, h, w⟩, ⟨n, c2, h, w⟩, ⟨n, c3, h, w⟩, ⟨n, c4, h, w⟩,
      ⟨n, c5, h, w⟩] = some ⟨n, c1 + (c2 + (c3 + (c4 + c5))), h, w⟩ := by
  simp [catChShape]

lemma catChShape_six (n c1 c2 c3 c4 c5 c6 h w : Nat) :
    catChShape [⟨n, c1, h, w⟩, ⟨n, c2, h, w⟩, ⟨n, c3, h, w⟩, ⟨n, c4, h, w⟩,
      ⟨n, c5, h, w⟩, ⟨n, c6, h, w⟩] =
      some ⟨n, c1 + (c2 + (c3 + (c4 + (c5 + c6)))), h, w⟩ := by
  simp [catChShape]

/-! ### Backbone block lemmas -/

lemma block1Shape_eq (n h w : Nat) (hh : 1 ≤ h) (hw : 1 ≤ w) :
    block1Shape ⟨n, 3, h, w⟩ = some ⟨n, 64, h, w⟩ := by
  rw [block1Shape, vggConvShape_eq 3 64 n 3 h w rfl hh hw, Option.some_bind,
    vggConvShape_eq 64 64 n 64 h w rfl hh hw]

lemma block2Shape_eq (n h w : Nat) (hh : 2 ≤ h) (hw : 2 ≤ w) :
    block2Shape ⟨n, 64, h, w⟩ = some ⟨n, 128, h / 2, w / 2⟩ := by
  rw [block2Shape, maxPool2dShape_eq n 64 h w hh hw, Option.some_bind,
    vggConvShape_eq 64 128 n 64 (h / 2) (w / 2) rfl (by omega) (by omega),
    Option.some_bind,
    vggConvShape_eq 128 128 n 128 (h / 2) (w / 2) rfl (by omega) (by omega)]

lemma block3Shape_eq (n h w : Nat) (hh : 2 ≤ h) (hw : 2 ≤ w) :
    block3Shape ⟨n, 128, h, w⟩ = some ⟨n, 256, h / 2, w / 2⟩ := by
  rw [block3Shape, maxPool2dShape_eq n 128 h w hh hw, Option.some_bind,
    vggConvShape_eq 128 256 n 128 (h / 2) (w / 2) rfl (by omega) (by omega),
    Option.some_bind,
    vggConvShape_eq 256 256 n 256 (h / 2) (w / 2) rfl (by omega) (by omega),
    Option.some_bind,
    vggConvShape_eq 256 256 n 256 (h / 2) (w / 2) rfl (by omega) (by omega)]

lemma block4Shape_eq (n h w : Nat) (hh : 2 ≤ h) (hw : 2 ≤ w) :
    block4Shape ⟨n, 256, h, w⟩ = some ⟨n, 512, h / 2, w / 2⟩ := by
  rw [block4Shape, maxPool2dShape_eq n 256 h w hh hw, Option.some_bind,
    vggConvShape_eq 256 512 n 256 (h / 2) (w / 2) rfl (by omega) (by omega),
    Option.some_bind,
    vggConvShape_eq 512 512 n 512 (h / 2) (w / 2) rfl (by omega) (by omega),
    Option.some_bind,
    vggConvShape_eq 512 512 n 512 (h / 2) (w / 2) rfl (by omega) (by omega)]

lemma block5Shape_eq (n h w : Nat) (hh : 2 ≤ h) (hw : 2 ≤ w) :
    block5Shape ⟨n, 512, h, w⟩ = some ⟨n, 512, h / 2, w / 2⟩ := by
  rw [block5Shape, maxPool2dShape_eq n 512 h w hh hw, Option.some_bind,
    vggConvShape_eq 512 512 n 512 (h / 2) (w / 2) rfl (by omega) (by omega),
    Option.some_bind,
    vggConvShape_eq 512 512 n 512 (h / 2) (w / 2) rfl (by omega) (by omega),
    Option.some_bind,
    vggConvShape_eq 512 512 n 512 (h / 2) (w / 2) rfl (by omega) (by omega)]

/-- The Feature Backbone Extractor maps `[N,3,H,W]` to `[N,1475,H,W]`
whenever the spatial dimensions survive the four internal max-pools. -/
lemma backboneShape_eq (n h w : Nat) (hh : 16 ≤ h) (hw : 16 ≤ w) :
    backboneShape ⟨n, 3, h, w⟩ = some ⟨n, 1475, h, w⟩ := by
  rw [backboneShape]
  simp only [Option.bind_eq_bind]
  rw [block1Shape_eq n h w (by omega) (by omega), Option.some_bind,
    block2Shape_eq n h w (by omega) (by omega), Option.some_bind,
    block3Shape_eq n (h / 2) (w / 2) (by omega) (by omega), Option.some_bind,
    block4Shape_eq n (h / 2 / 2) (w / 2 / 2) (by omega) (by omega), Option.some_bind,
    block5Shape_eq n (h / 2 / 2 / 2) (w / 2 / 2 / 2) (by omega) (by omega),
    Option.some_bind]
  simp only [List.map_cons, List.map_nil]
  dsimp only
  rw [if_neg (by omega), if_neg (by omega), if_pos (by omega), if_pos (by omega),
    if_pos (by omega), if_pos (by omega)]
  simp only [interpolateShape]
  rw [catChShape_six]

/-! ### SPP lemmas -/

lemma avgPool2dShape_pad0 (k n c h w : Nat) (hk : 0 < k) (hh : k ≤ h) (hw : k ≤ w) :
    avgPool2dShape k 0 ⟨n, c, h, w⟩ =
      some ⟨n, c, (h - k) / k + 1, (w - k) / k + 1⟩ := by
  simp [avgPool2dShape, hk, hh, hw]

lemma sppLevelShape_eq (cin H W level n h w : Nat)
    (hh : 2 * 2 ^ (level + 1) ≤ h) (hw : 2 * 2 ^ (level + 1) ≤ w) :
    sppLevelShape cin H W level ⟨n, cin, h, w⟩ = some ⟨n, cin, H, W⟩ := by
  have hmod : 2 * 2 ^ (level + 1) % 2 = 0 := Nat.mul_mod_right 2 _
  rw [sppLevelShape, hmod,
    avgPool2dShape_pad0 _ n cin h w (by positivity) hh hw, Option.some_bind,
    convLayerShape_k1 cin cin n cin _ _ rfl (Nat.le_add_left 1 _) (Nat.le_add_left 1 _)]
  rfl

lemma sppShape_eq (cin cout n h w : Nat) (hh : 32 ≤ h) (hw : 32 ≤ w) :
    sppShape cin cout 4 ⟨n, cin, h, w⟩ = some ⟨n, cout, h, w⟩ := by
  have l0 := sppLevelShape_eq cin h w 0 n h w (by norm_num; omega) (by norm_num; omega)
  have l1 := sppLevelShape_eq cin h w 1 n h w (by norm_num; omega) (by norm_num; omega)
  have l2 := sppLevelShape_eq cin h w 2 n h w (by norm_num; omega) (by norm_num; omega)
  have l3 := sppLevelShape_eq cin h w 3 n h w (by norm_num; omega) (by norm_num; omega)
  have hr : List.range 4 = [0, 1, 2, 3] := rfl
  rw [sppShape]
  simp only [Option.bind_eq_bind]
  rw [hr]
  simp only [List.mapM_cons, List.mapM_nil, Option.bind_eq_bind]
  rw [l0, Option.some_bind, l1, Option.some_bind, l2, Option.some_bind,
    l3, Option.some_bind]
  simp only [Option.pure_def, Option.some_bind, List.cons_append, List.nil_append]
  rw [catChShape_five n cin cin cin cin cin h w, Option.some_bind,
    convLayerShape_k3 (cin * (4 + 1)) cout 1 n (cin + (cin + (cin + (cin + cin))))
      h w (by omega) (by omega) (by omega) (by omega)]

/-- `Agg.forward` (default `channels = 64`) preserves `[N,3,H,W]` whenever
both spatial dimensions strictly exceed the largest reflection padding
(64, from the dilation-64 stage-3 convolution). -/
lemma aggShape_eq (n h w : Nat) (hh : 65 ≤ h) (hw : 65 ≤ w) :
    aggShape 64 ⟨n, 3, h, w⟩ = some ⟨n, 3, h, w⟩ := by
  rw [aggShape]
  simp only [Option.bind_eq_bind]
  rw [backboneShape_eq n h w (by omega) (by omega), Option.some_bind,
    convLayerShape_k1 1475 64 n 1475 h w rfl (by omega) (by omega), Option.some_bind,
    convLayerShape_k1 64 64 n 64 h w rfl (by omega) (by omega), Option.some_bind,
    convLayerShape_k3 64 64 1 n 64 h w rfl (by omega) (by omega) (by omega),
    Option.some_bind,
    catChShape_two n 64 64 h w, Option.some_bind,
    aggreationShape_eq (64 * 2) 64 n (64 + 64) h w (by norm_num) (by omega) (by omega),
    Option.some_bind,
    convLayerShape_k3 64 64 2 n 64 h w rfl (by omega) (by omega) (by omega),
    Option.some_bind,
    convLayerShape_k3 64 64 4 n 64 h w rfl (by omega) (by omega) (by omega),
    Option.some_bind,
    catChShape_three n 64 64 64 h w, Option.some_bind,
    aggreationShape_eq (64 * 3) 64 n (64 + (64 + 64)) h w (by norm_num) (by omega)
      (by omega),
    Option.some_bind,
    convLayerShape_k3 64 64 8 n 64 h w rfl (by omega) (by omega) (by omega),
    Option.some_bind,
    convLayerShape_k3 64 64 16 n 64 h w rfl (by omega) (by omega) (by omega),
    Option.some_bind,
    catChShape_three n 64 64 64 h w, Option.some_bind,
    aggreationShape_eq (64 * 3) 64 n (64 + (64 + 64)) h w (by norm_num) (by omega)
      (by omega),
    Option.some_bind,
    convLayerShape_k3 64 64 32 n 64 h w rfl (by omega) (by omega) (by omega),
    Option.some_bind,
    convLayerShape_k3 64 64 64 n 64 h w rfl (by omega) (by omega) (by omega),
    Option.some_bind,
    catChShape_four n 64 64 64 64 h w, Option.some_bind,
    aggreationShape_eq (64 * 4) 64 n (64 + (64 + (64 + 64))) h w (by norm_num)
      (by omega) (by omega),
    Option.some_bind,
    sppShape_eq 64 64 n h w (by omega) (by omega), Option.some_bind,
    conv2dShape_stride1 64 3 1 0 1 n 64 h w rfl (by omega) (by omega)]
  simp only [Option.some.injEq, Shape4.mk.injEq]
  refine ⟨trivial, trivial, by omega, by omega⟩

/-! ### Training/Evaluation loop (`train.py`)

The checkpoint logic is modelled over the list of per-phase averaged
validation PSNR values (rationals).  `train` initialises
`best_psnr = 0`; in each validation phase it tests `psnr > best_psnr`
and, when the test succeeds, updates `best_psnr` and persists a
checkpoint record for that epoch. -/

/-- `best_psnr = 0` at train.py line 66, before any validation phase. -/
def initBest : ℚ := 0

/-- One watermark update: `if psnr > best_psnr: best_psnr = psnr`. -/
def bestUpd (b p : ℚ) : ℚ := if b < p then p else b

/-- Watermark after folding a sequence of phase PSNRs over a start value. -/
def bestFrom (b : ℚ) (ps : List ℚ) : ℚ := ps.foldl bestUpd b

/-- The best-PSNR watermark after the given validation phases. -/
def bestAfter (ps : List ℚ) : ℚ := bestFrom initBest ps

/-- Indices of the phases in which `train` persists a checkpoint, starting
from watermark `b` and phase index `i`: exactly the phases whose PSNR
passes the `psnr > best_psnr` test. -/
def valSaves : List ℚ → ℚ → Nat → List Nat
  | [], _, _ => []
  | p :: rest, b, i =>
    if b < p then i :: valSaves rest p (i + 1) else valSaves rest b (i + 1)

/-- Phases in which a Checkpoint Record is persisted for the full run. -/
def savedPhases (ps : List ℚ) : List Nat := valSaves ps initBest 0

lemma le_bestUpd (b p : ℚ) : b ≤ bestUpd b p := by
  unfold bestUpd
  split <;> linarith

lemma le_bestFrom (b : ℚ) (ps : List ℚ) : b ≤ bestFrom b ps := by
  induction ps generalizing b with
  | nil => exact le_refl b
  | cons p rest ih =>
    calc b ≤ bestUpd b p := le_bestUpd b p
    _ ≤ bestFrom (bestUpd b p) rest := ih (bestUpd b p)

lemma bestFrom_cons (b p : ℚ) (ps : List ℚ) :
    bestFrom b (p :: ps) = bestFrom (bestUpd b p) ps := rfl

lemma valSaves_cons (p : ℚ) (ps : List ℚ) (b : ℚ) (i : Nat) :
    valSaves (p :: ps) b i =
      if b < p then i :: valSaves ps p (i + 1) else valSaves ps b (i + 1) := rfl

/-- Membership characterisation of the persisted phases: phase `i0 + k` is
persisted exactly when its PSNR strictly exceeds the watermark reached
after the first `k` phases. -/
lemma mem_valSaves (ps : List ℚ) (b : ℚ) (i0 m : Nat) :
    m ∈ valSaves ps b i0 ↔
      ∃ k, ∃ hk : k < ps.length, m = i0 + k ∧ bestFrom b (ps.take k) < ps.get ⟨k, hk⟩ := by
  induction ps generalizing b i0 with
  | nil =>
    simp [valSaves]
  | cons p rest ih =>
    rw [valSaves_cons]
    constructor
    · intro hm
      by_cases hbp : b < p
      · rw [if_pos hbp] at hm
        rcases List.mem_cons.mp hm with h0 | htail
        · exact ⟨0, by simp, by omega, by simpa [bestFrom] using hbp⟩
        · rcases (ih p (i0 + 1)).mp htail with ⟨k, hk, hmk, hlt⟩
          refine ⟨k + 1, by simpa using Nat.succ_lt_succ hk, by omega, ?_⟩
          have : bestUpd b p = p := by simp [bestUpd, hbp]
          simpa [List.take_succ_cons, bestFrom_cons, this] using hlt
      · rw [if_neg hbp] at hm
        rcases (ih b (i0 + 1)).mp hm with ⟨k, hk, hmk, hlt⟩
        refine ⟨k + 1, by simpa using Nat.succ_lt_succ hk, by omega, ?_⟩
        have : bestUpd b p = b := by simp [bestUpd, hbp]
        simpa [List.take_succ_cons, bestFrom_cons, this] using hlt
    · rintro ⟨k, hk, hmk, hlt⟩
      match k with
      | 0 =>
        have hbp : b < p := by simpa [bestFrom] using hlt
        rw [if_pos hbp]
        exact List.mem_cons.mpr (Or.inl (by omega))
      | k + 1 =>
        have hk' : k < rest.length := by simpa using Nat.lt_of_succ_lt_succ hk
        by_cases hbp : b < p
        · have hb : bestUpd b p = p := by simp [bestUpd, hbp]
          rw [if_pos hbp]
          refine List.mem_cons.mpr (Or.inr ((ih p (i0 + 1)).mpr ⟨k, hk', by omega, ?_⟩))
          simpa [List.take_succ_cons, bestFrom_cons, hb] using hlt
        · have hb : bestUpd b p = b := by simp [bestUpd, hbp]
          rw [if_neg hbp]
          refine (ih b (i0 + 1)).mpr ⟨k, hk', by omega, ?_⟩
          simpa [List.take_succ_cons, bestFrom_cons, hb] using hlt

lemma bestAfter_take_succ (ps : List ℚ) (i : Nat) :
    bestAfter (ps.take i) ≤ bestAfter (ps.take (i + 1)) := by
  rw [List.take_succ]
  unfold bestAfter bestFrom
  rw [List.foldl_append]
  exact le_bestFrom _ _

lemma bestAfter_take_mono (ps : List ℚ) {i j : Nat} (hij : i ≤ j) :
    bestAfter (ps.take i) ≤ bestAfter (ps.take j) := by
  induction j with
  | zero =>
    have : i = 0 := by omega
    subst this
    exact le_refl _
  | succ j ih =>
    rcases Nat.lt_or_ge i (j + 1) with hlt | hge
    · exact le_trans (ih (by omega)) (bestAfter_take_succ ps j)
    · have : i = j + 1 := by omega
      subst this
      exact le_refl _

/-- A phase is persisted iff its PSNR strictly exceeds the watermark
reached just before it. -/
lemma mem_savedPhases (ps : List ℚ) (i : Nat) (hi : i < ps.length) :
    i ∈ savedPhases ps ↔ bestAfter (ps.take i) < ps.get ⟨i, hi⟩ := by
  unfold savedPhases bestAfter
  rw [mem_valSaves]
  constructor
  · rintro ⟨k, hk, hmk, hlt⟩
    obtain rfl : k = i := by omega
    exact hlt
  · intro hlt
    exact ⟨i, hi, by omega, hlt⟩

/-! ### Composite loss (`train.py` lines 41–42 and 82–86) -/

/-- `torch.nn.MSELoss()` over flattened tensors: mean of squared
differences. -/
def mseLoss (r t : List ℚ) : ℚ :=
  (((r.zip t).map fun q => (q.1 - q.2) ^ 2).sum) / r.length

/-- Configuration of the structural-similarity criterion at train.py line
42: `SSIM(data_range=1, size_average=True, channel=3)`. -/
structure SSIMCfg where
  data_range : ℚ
  size_average : Bool
  channel : Nat
deriving DecidableEq, Repr

/-- `criterion_ssim = SSIM(data_range=1, size_average=True, channel=3)`. -/
def criterionSSIMCfg : SSIMCfg := ⟨1, true, 3⟩

/-- The per-mini-batch training loss of `train` (lines 82–86):
`loss_psnr = MSE(res, tar)`, `loss_ssim = 1 - criterion_ssim(res, tar)`,
`train_loss = perceptual(res, tar) + loss_psnr + 0.4 * loss_ssim`.  The
perceptual and SSIM scores come from external collaborator modules and
are abstracted as function parameters. -/
def trainBatchLoss (perceptual ssim : List ℚ → List ℚ → ℚ) (res tar : List ℚ) : ℚ :=
  let loss_psnr := mseLoss res tar
  let loss_ssim := 1 - ssim res tar
  perceptual res tar + loss_psnr + (2 / 5 : ℚ) * loss_ssim

/-! ### Validation-phase defensive resize (`train.py` lines 109–116) -/

/-- `if res.shape != tar.shape: res = F.interpolate(res, (tar.shape[2],
tar.shape[3]))` — the scored restored tensor. -/
def valScoreResize (res tar : Shape4) : Shape4 :=
  if res ≠ tar then interpolateShape "nearest" tar.h tar.w res else res

/-! ### Dataflow of `Agg.forward` as a symbolic expression tree

To settle wiring claims the forward pass is also embedded symbolically:
each module application becomes a constructor, transcribed line by line
from `Agg.forward` (agg.py lines 201–234). -/

/-- Symbolic tensor expressions appearing in `Agg.forward`:
`blockE s i x` is `self.block{s}_{i}(x)`, `aggE s x` is
`self.aggreation{s}_rgb(x)`, `catE` is `torch.cat(·, dim=1)`. -/
inductive TExpr where
  | input : TExpr
  | backboneE : TExpr → TExpr
  | fusionE : TExpr → TExpr
  | blockE : Nat → Nat → TExpr → TExpr
  | catE : List TExpr → TExpr
  | aggE : Nat → TExpr → TExpr
  | sppE : TExpr → TExpr
  | outConvE : TExpr → TExpr

/-- `out = self.fusion(self.backbone(x))`. -/
def outFusedE : TExpr := TExpr.fusionE (TExpr.backboneE TExpr.input)

/-- `out0_1 = self.block0_1(out)`. -/
def out0_1E : TExpr := TExpr.blockE 0 1 outFusedE

/-- `out0_2 = self.block0_2(out0_1)`. -/
def out0_2E : TExpr := TExpr.blockE 0 2 out0_1E

/-- `agg0_rgb = self.aggreation0_rgb(torch.cat((out0_1, out0_2), dim=1))`. -/
def agg0E : TExpr := TExpr.aggE 0 (TExpr.catE [out0_1E, out0_2E])

/-- `out1_1 = self.block1_1(agg0_rgb)`. -/
def out1_1E : TExpr := TExpr.blockE 1 1 agg0E

/-- `out1_2 = self.block1_2(out1_1)`. -/
def out1_2E : TExpr := TExpr.blockE 1 2 out1_1E

/-- `agg1_rgb = self.aggreation1_rgb(torch.cat((agg0_rgb, out1_1, out1_2), dim=1))`. -/
def agg1E : TExpr := TExpr.aggE 1 (TExpr.catE [agg0E, out1_1E, out1_2E])

/-- `out2_1 = self.block2_1(agg1_rgb)`. -/
def out2_1E : TExpr := TExpr.blockE 2 1 agg1E

/-- `out2_2 = self.block2_2(out2_1)`. -/
def out2_2E : TExpr := TExpr.blockE 2 2 out2_1E

/-- `agg2_rgb = self.aggreation2_rgb(torch.cat((agg1_rgb, out2_1, out2_2), dim=1))`. -/
def agg2E : TExpr := TExpr.aggE 2 (TExpr.catE [agg1E, out2_1E, out2_2E])

/-- `out3_1 = self.block3_1(agg2_rgb)`. -/
def out3_1E : TExpr := TExpr.blockE 3 1 agg2E

/-- `out3_2 = self.block3_2(out3_1)`. -/
def out3_2E : TExpr := TExpr.blockE 3 2 out3_1E

/-- `agg3_rgb = self.aggreation3_rgb(torch.cat((agg1_rgb, agg2_rgb, out3_1, out3_2), dim=1))`
— transcribed from agg.py line 228. -/
def agg3E : TExpr := TExpr.aggE 3 (TExpr.catE [agg1E, agg2E, out3_1E, out3_2E])

/-- `return self.block4_1(self.spp_img(agg3_rgb))`. -/
def aggForwardE : TExpr := TExpr.outConvE (TExpr.sppE agg3E)

/-- The argument list of the stage-`s` aggregation gate, read off the
expression tree: `none` if the tree has no such node or its argument is
not a concatenation. -/
def aggInputsOf (s : Nat) : TExpr → Option (List TExpr)
  | TExpr.input => none
  | TExpr.backboneE x => aggInputsOf s x
  | TExpr.fusionE x => aggInputsOf s x
  | TExpr.blockE _ _ x => aggInputsOf s x
  | TExpr.catE _ => none
  | TExpr.aggE t x =>
    if t = s then
      match x with
      | TExpr.catE xs => some xs
      | _ => none
    else aggInputsOf s x
  | TExpr.sppE x => aggInputsOf s x
  | TExpr.outConvE x => aggInputsOf s x

/-! ### Claims -/

/-- C1 counterexample: at the boundary `H = W = 64` admitted by the claim,
the dilation-64 stage-3 convolution requests reflection padding 64, which
is not smaller than the 64-pixel input dimension, so `Agg.forward` raises
instead of producing a `[1,3,64,64]` output. -/
theorem C1_counterexample : aggShape 64 ⟨1, 3, 64, 64⟩ = none := by rfl

/-- C1 (amended): for every valid input tensor `[N,3,H,W]` with `H` and `W`
even and at least 66, `Agg.forward` returns a tensor of shape exactly
`[N,3,H,W]`. -/
theorem C1_agg_forward_shape (n h w : Nat) (hh2 : h % 2 = 0) (hw2 : w % 2 = 0)
    (hh : 66 ≤ h) (hw : 66 ≤ w) :
    aggShape 64 ⟨n, 3, h, w⟩ = some ⟨n, 3, h, w⟩ :=
  aggShape_eq n h w (by omega) (by omega)

/-- C1 witness: the amended statement evaluated at `[1,3,66,128]`. -/
theorem C1_agg_forward_shape_witness :
    aggShape 64 ⟨1, 3, 66, 128⟩ = some ⟨1, 3, 66, 128⟩ :=
  C1_agg_forward_shape 1 66 128 (by decide) (by decide) (by decide) (by decide)

/-- C2 counterexample: for the pair `(kernel_size, dilation) = (3, 64)` the
claim quantifies over every input tensor, but on a `[1,1,32,32]` input the
requested reflection padding 64 exceeds the 32-pixel spatial dimensions
and the layer raises instead of preserving the spatial size. -/
theorem C2_counterexample :
    convLayerShape 1 1 3 1 64 ⟨1, 1, 32, 32⟩ = none ∧
      ((3, 64) ∈ [(1, 1), (3, 1), (3, 2), (3, 4), (3, 8), (3, 16), (3, 32), (3, 64)]) :=
  ⟨by rfl, by decide⟩

/-- C2 (amended): for each `(kernel_size, dilation)` pair used in the
network, the stride-1 `ConvLayer` preserves the spatial dimensions of
every input tensor whose spatial dimensions strictly exceed the
reflection-padding size `⌊(kernel_size + (dilation-1)(kernel_size-1))/2⌋`. -/
theorem C2_convlayer_preserves (k d : Nat)
    (hmem : (k, d) ∈ [(1, 1), (3, 1), (3, 2), (3, 4), (3, 8), (3, 16), (3, 32), (3, 64)])
    (cin cout n h w : Nat) (hh : convLayerPad k d < h) (hw : convLayerPad k d < w) :
    convLayerShape cin cout k 1 d ⟨n, cin, h, w⟩ = some ⟨n, cout, h, w⟩ := by
  fin_cases hmem <;> simp only [convLayerPad] at hh hw <;> norm_num at hh hw <;>
    first
      | exact convLayerShape_k1 cin cout n cin h w rfl (by omega) (by omega)
      | exact convLayerShape_k3 cin cout _ n cin h w rfl (by omega) (by omega) (by omega)

/-- C2 witness: the amended statement evaluated at pair `(3,2)` on a
`[1,4,10,11]` input (padding 2 < 10, 11). -/
theorem C2_convlayer_preserves_witness :
    convLayerShape 4 5 3 1 2 ⟨1, 4, 10, 11⟩ = some ⟨1, 5, 10, 11⟩ :=
  C2_convlayer_preserves 3 2 (by decide) 4 5 1 10 11 (by decide) (by decide)

/-- C3 counterexample: `ConvLayer` constructed with the unrecognized
normalization kind "groupnorm" and activation kind "swish" succeeds (both
silently resolved to `None`) instead of failing with a configuration
error. -/
theorem C3_counterexample :
    convLayerInit 4 4 3 1 1 "groupnorm" "swish" =
      Except.ok ⟨1, 4, 4, 3, 1, 1, NormChoice.noNorm, ActChoice.noAct⟩ := by
  rfl

/-- C3 (amended): the Channel Self-Attention Gate fails at construction
with `ValueError` for every unrecognized activation kind, but the Padded
Convolution Unit never fails — every unrecognized normalization or
activation kind is silently resolved to `None`. -/
theorem C3_config_errors (c k cin cout kk st d : Nat) (ns s : String)
    (h1 : s ≠ "relu") (h2 : s ≠ "leakyrelu") (h3 : s ≠ "PReLU")
    (h4 : ns ≠ "bn") (h5 : ns ≠ "in") :
    selfAttentionInit c k s = Except.error "ValueError" ∧
    convLayerInit cin cout kk st d ns s =
      Except.ok ⟨convLayerPad kk d, cin, cout, kk, st, d,
        NormChoice.noNorm, ActChoice.noAct⟩ := by
  constructor
  · simp [selfAttentionInit, h1, h2, h3]
  · simp [convLayerInit, h1, h2, h3, h4, h5]

/-- C3 witness: the amended statement evaluated at the unrecognized kinds
"groupnorm" / "swish". -/
theorem C3_config_errors_witness :
    selfAttentionInit 8 2 "swish" = Except.error "ValueError" ∧
    convLayerInit 4 4 3 1 1 "groupnorm" "swish" =
      Except.ok ⟨convLayerPad 3 1, 4, 4, 3, 1, 1,
        NormChoice.noNorm, ActChoice.noAct⟩ :=
  C3_config_errors 8 2 4 4 3 1 1 "groupnorm" "swish"
    (by decide) (by decide) (by decide) (by decide) (by decide)

/-- C4: the per-mini-batch training loss equals
`perceptual(R,T) + MSE(R,T) + 0.4 × (1 − SSIM(R,T))`, and the SSIM
criterion is configured with data range 1 and size averaging. -/
theorem C4_loss_formula (P S : List ℚ → List ℚ → ℚ) (res tar : List ℚ) :
    trainBatchLoss P S res tar =
      P res tar + mseLoss res tar + (2 / 5 : ℚ) * (1 - S res tar) ∧
    criterionSSIMCfg.data_range = 1 ∧ criterionSSIMCfg.size_average = true :=
  ⟨rfl, rfl, rfl⟩

/-- C5: the best-PSNR watermark is monotonically non-decreasing across any
sequence of validation phases, and phase `i` persists a Checkpoint Record
iff its averaged PSNR strictly exceeds every previously held best value. -/
theorem C5_checkpoint_iff (ps : List ℚ) (i j : Nat) (hij : i ≤ j)
    (hi : i < ps.length) :
    bestAfter (ps.take i) ≤ bestAfter (ps.take j) ∧
    (i ∈ savedPhases ps ↔ ∀ m ≤ i, bestAfter (ps.take m) < ps.get ⟨i, hi⟩) := by
  refine ⟨bestAfter_take_mono ps hij, ?_⟩
  rw [mem_savedPhases ps i hi]
  constructor
  · intro hlt m hm
    exact lt_of_le_of_lt (bestAfter_take_mono ps hm) hlt
  · intro hall
    exact hall i (le_refl i)

/-- C5 witness: the statement evaluated on the PSNR sequence `[1, 2]` at
phases `i = 0`, `j = 1`. -/
theorem C5_checkpoint_iff_witness :
    bestAfter (List.take 0 [(1 : ℚ), 2]) ≤ bestAfter (List.take 1 [(1 : ℚ), 2]) ∧
    (0 ∈ savedPhases [(1 : ℚ), 2] ↔
      ∀ m ≤ 0, bestAfter (List.take m [(1 : ℚ), 2]) <
        List.get [(1 : ℚ), 2] ⟨0, by norm_num⟩) :=
  C5_checkpoint_iff [1, 2] 0 1 (by norm_num) (by norm_num)

/-- C6: the stage-3 aggregation of `Agg.forward` fuses exactly the four
streams `agg1_rgb`, `agg2_rgb`, `out3_1`, `out3_2` concatenated in that
order, and `agg1_rgb` is the stage-1 aggregation output — the long-range
skip reuses `agg1` rather than only `agg2`'s immediate predecessors. -/
theorem C6_stage3_inputs :
    aggInputsOf 3 aggForwardE = some [agg1E, agg2E, out3_1E, out3_2E] ∧
    agg1E = TExpr.aggE 1 (TExpr.catE [agg0E, out1_1E, out1_2E]) :=
  ⟨rfl, rfl⟩

/-- C7: for every 3-channel input `[N,3,H,W]` with spatial dimensions
large enough for the five backbone blocks (each of the four internal
2×2 max-pools needs at least 2 pixels, i.e. `H, W ≥ 16`), the Feature
Backbone Extractor output has exactly 1475 channels at spatial size
`(H, W)`. -/
theorem C7_backbone_channels (n h w : Nat) (hh : 16 ≤ h) (hw : 16 ≤ w) :
    backboneShape ⟨n, 3, h, w⟩ = some ⟨n, 1475, h, w⟩ :=
  backboneShape_eq n h w hh hw

/-- C7 witness: the statement evaluated at `[1,3,64,64]`. -/
theorem C7_backbone_channels_witness :
    backboneShape ⟨1, 3, 64, 64⟩ = some ⟨1, 1475, 64, 64⟩ :=
  C7_backbone_channels 1 64 64 (by decide) (by decide)

/-- C8: during validation, whenever the restored tensor's shape differs
from the target's, the restored tensor is resized by interpolation to the
target's spatial dimensions before PSNR/SSIM are computed. -/
theorem C8_val_resize (res tar : Shape4) (hne : res ≠ tar) :
    valScoreResize res tar = ⟨res.n, res.c, tar.h, tar.w⟩ := by
  rw [valScoreResize, if_pos hne]
  rfl

/-- C8 witness: restored `[1,3,100,150]` against target `[1,3,120,180]`
scores as `[1,3,120,180]`. -/
theorem C8_val_resize_witness :
    valScoreResize ⟨1, 3, 100, 150⟩ ⟨1, 3, 120, 180⟩ = ⟨1, 3, 120, 180⟩ :=
  C8_val_resize ⟨1, 3, 100, 150⟩ ⟨1, 3, 120, 180⟩ (by decide)

/-- C9: for every `channels` and reduction ratio `k` with `1 ≤ k ≤
channels`, the Channel Self-Attention Gate constructs successfully with no
divisibility validation, and its bottleneck width is `⌊channels/k⌋ ≥ 1`. -/
theorem C9_attention_bottleneck (channels k : Nat) (hk1 : 1 ≤ k)
    (hk : k ≤ channels) :
    selfAttentionInit channels k "relu" =
      Except.ok ⟨channels, k, channels / k, ActChoice.relu⟩ ∧
    1 ≤ channels / k :=
  ⟨rfl, Nat.div_pos hk (by omega)⟩

/-- C9 witness: `channels = 10`, `k = 4` (not dividing evenly) gives
bottleneck width 2. -/
theorem C9_attention_bottleneck_witness :
    (selfAttentionInit 10 4 "relu" =
      Except.ok ⟨10, 4, 10 / 4, ActChoice.relu⟩) ∧ 1 ≤ 10 / 4 :=
  C9_attention_bottleneck 10 4 (by decide) (by decide)

/-- C10: the best-PSNR watermark starts at 0, so the first validation
phase persists a Checkpoint Record iff its averaged PSNR is strictly
positive. -/
theorem C10_initial_watermark :
    initBest = 0 ∧
    ∀ (p : ℚ) (rest : List ℚ), (0 ∈ savedPhases (p :: rest) ↔ 0 < p) := by
  refine ⟨rfl, fun p rest => ?_⟩
  rw [mem_savedPhases (p :: rest) 0 (by simp)]
  simp [bestAfter, bestFrom, initBest]
